import Mathlib

set_option maxRecDepth 16384

/-!
Shallow embedding of the core retrieval-augmented-generation pipeline of this
repository (`rag_system.py`, `document_processor.py`, `utils.py`, `api.py`).

Conventions: Python `str` text is `List Char`; file byte contents are
`List Nat`.  External capabilities — similarity retrieval over the embedded
index, the generative model, and `hashlib.sha256` — are passed as function
parameters to the operations that call them.  Fallible Python code returns
`Except`; the Python exception classes relevant to the pipeline are the
constructors of `PyErr`.
-/

/-- Python exception classes relevant to the pipeline.  The constructor
`noDocumentsIndexed` stands for the `NoDocumentsIndexedError` named by the
specification; that class appears in no source file, and this development
proves the code never produces it. -/
inductive PyErr where
  | fileNotFound (msg : String)
  | valueError (msg : String)
  | noDocumentsIndexed
  | otherError (msg : String)
deriving DecidableEq

/-- One index entry as stored by the `Chroma` vector store: the chunk text
plus the metadata `PyPDFLoader` attaches to every page (the `source` path and
the 0-based `page` number), inherited by each chunk split from that page. -/
structure Chunk where
  text : List Char
  source : String
  page : Nat
deriving DecidableEq

/-- Decidable equality of `Except` values, needed to derive it for records
holding load outcomes. -/
def exceptEqDec {ε α : Type} [DecidableEq ε] [DecidableEq α] :
    (a b : Except ε α) → Decidable (a = b)
  | .ok x, .ok y =>
    match decEq x y with
    | isTrue h => isTrue (by rw [h])
    | isFalse h => isFalse (fun hc => h (Except.ok.inj hc))
  | .ok _, .error _ => isFalse (fun hc => Except.noConfusion hc)
  | .error _, .ok _ => isFalse (fun hc => Except.noConfusion hc)
  | .error x, .error y =>
    match decEq x y with
    | isTrue h => isTrue (by rw [h])
    | isFalse h => isFalse (fun hc => h (Except.error.inj hc))

instance {ε α : Type} [DecidableEq ε] [DecidableEq α] : DecidableEq (Except ε α) :=
  exceptEqDec

/-- A PDF file of the source directory.  `load` is the outcome of
`PyPDFLoader(path).load()`: the list of decoded page texts, or the message of
the exception the loader raised (corrupt / encrypted file). -/
structure PdfFile where
  filename : String
  load : Except String (List (List Char))
deriving DecidableEq

/-- Filesystem-and-process state of one `RAGSystem` instance.
`storeDirNonEmpty` models `os.path.exists(vsp) and os.listdir(vsp)` for the
vector-store path, `persisted` the entries durably stored in the Chroma
directory, and `vector_store` the in-memory handle (`None` until loaded). -/
structure RagState where
  pdfDir : String
  pdfDirExists : Bool
  pdfFiles : List PdfFile
  storeDirNonEmpty : Bool
  persisted : List Chunk
  vector_store : Option (List Chunk)
deriving DecidableEq

/-- Vector-store operations performed during a run, in order: a batch
insertion (`Chroma.from_documents`) or a `persist()` call. -/
inductive Event where
  | insert (cs : List Chunk)
  | persistEv
deriving DecidableEq

/-- Modelled from the spec: the Chunker is `RecursiveCharacterTextSplitter`
from the third-party langchain library, whose code is not part of this
repository.  Spec section 4.1: configuration chunk size 1000 characters and
overlap 200; text no longer than the chunk size yields one chunk; otherwise
fixed windows advance by 800 characters so consecutive chunks overlap by 200
characters, the final chunk possibly shorter.  The `fuel` argument only bounds
the recursion depth; every call supplies at least the text length, which the
window count never exceeds. -/
def splitWindows (fuel : Nat) (s : List Char) : List (List Char) :=
  match fuel with
  | 0 => [s]
  | fuel + 1 =>
    if s.length ≤ 1000 then [s]
    else s.take 1000 :: splitWindows fuel (s.drop 800)

/-- Modelled from the spec: `split_text` of the configured splitter.  Spec
section 4.1: empty text yields an empty sequence, not an error. -/
def splitText (s : List Char) : List (List Char) :=
  if s.isEmpty then [] else splitWindows s.length s

/-- Per-file status record appended by `process_documents`
(`document_processor.py`): success carries the chunk and page counts, failure
the stringified exception. -/
inductive FileStatus where
  | success (filename : String) (chunks pages : Nat)
  | failed (filename : String) (error : String)
deriving DecidableEq

/-- Return value of `process_documents`: the counters plus the per-file
status list, in processing order. -/
structure Report where
  processed : Nat
  failed : Nat
  files : List FileStatus
deriving DecidableEq

/-- Does `PyPDFLoader.load()` succeed for this file? -/
def loadOk (f : PdfFile) : Bool :=
  match f.load with
  | .ok _ => true
  | .error _ => false

/-- Case-sensitive suffix test used by `glob.glob(os.path.join(d, "*.pdf"))`
in `document_processor.py`. -/
def globIsPdf (name : String) : Bool :=
  ".pdf".data.isSuffixOf name.data

/-- The filter `glob.glob(os.path.join(pdf_directory, "*.pdf"))`. -/
def globPdf (files : List PdfFile) : List PdfFile :=
  files.filter (fun f => globIsPdf f.filename)

/-- Lowercased suffix test `f.lower().endswith('.pdf')` used by
`rag_system.py` and `utils.py`. -/
def lowerIsPdf (name : String) : Bool :=
  ".pdf".data.isSuffixOf (name.data.map Char.toLower)

/-- The PDF list built by `initialize_vector_store`:
`[f for f in os.listdir(self.pdf_dir) if f.lower().endswith('.pdf')]`. -/
def lowerPdfFiles (st : RagState) : List PdfFile :=
  st.pdfFiles.filter fun f => lowerIsPdf f.filename

/-- The per-file loop of `process_documents`: each PDF is loaded and split
inside a `try` block; an exception is recorded in the status list and the
loop continues with the next file (collect-and-continue). -/
def processFiles : List PdfFile → Report
  | [] => { processed := 0, failed := 0, files := [] }
  | f :: rest =>
    let r := processFiles rest
    match f.load with
    | .ok pages =>
      { processed := r.processed + 1, failed := r.failed,
        files := FileStatus.success f.filename (pages.flatMap splitText).length
                 pages.length :: r.files }
    | .error e =>
      { processed := r.processed, failed := r.failed + 1,
        files := FileStatus.failed f.filename e :: r.files }

/-- The status record `process_documents` appends for one file. -/
def statusOf (f : PdfFile) : FileStatus :=
  match f.load with
  | .ok pages => .success f.filename (pages.flatMap splitText).length pages.length
  | .error e => .failed f.filename e

/-- Function `process_documents(pdf_directory)` of `document_processor.py`.
The directory-fallback branches probe hard-coded developer paths that do not
exist in a deployed system and are modelled as absent, so a missing directory
raises `FileNotFoundError`; an existing directory with no `*.pdf` match
returns the empty report. -/
def process_documents (dirExists : Bool) (files : List PdfFile) : Except PyErr Report :=
  if dirExists = false then .error (.fileNotFound "PDF directory not found")
  else if (globPdf files).isEmpty then .ok { processed := 0, failed := 0, files := [] }
  else .ok (processFiles (globPdf files))

/-- Path concatenation `os.path.join(dir, name)`. -/
def pathJoin (a b : String) : String := a ++ "/" ++ b

/-- Chunks produced from one loaded PDF inside `initialize_vector_store`:
every page is split and each chunk carries the loader metadata (source path,
0-based page number). -/
def docChunks (dir : String) (f : PdfFile) (pages : List (List Char)) : List Chunk :=
  pages.enum.flatMap fun p =>
    (splitText p.2).map fun t =>
      { text := t, source := pathJoin dir f.filename, page := p.1 }

/-- The load-and-split loop of `RAGSystem.initialize_vector_store`
(`rag_system.py`).  Unlike `process_documents` it has no per-document
exception handling: the first failing load propagates and aborts the run. -/
def loadAll (dir : String) : List PdfFile → Except String (List Chunk)
  | [] => .ok []
  | f :: rest =>
    match f.load with
    | .error e => .error e
    | .ok pages => (loadAll dir rest).map fun cs => docChunks dir f pages ++ cs

/-- Method `RAGSystem.initialize_vector_store` (`rag_system.py`).  If the
persist directory is non-empty, the existing store is loaded and nothing is
inserted.  Otherwise every file whose lowercased name ends in `.pdf` is
loaded and split, all chunks are inserted in one `Chroma.from_documents`
call, and `persist()` is called once.  Returned alongside the new state is
the ordered trace of vector-store events of the run. -/
def initialize_vector_store (st : RagState) : Except PyErr (RagState × List Event) :=
  if st.storeDirNonEmpty then
    .ok ({ st with vector_store := some st.persisted }, [])
  else if st.pdfDirExists = false then
    .error (.fileNotFound ("PDF directory not found: " ++ st.pdfDir))
  else if (lowerPdfFiles st).isEmpty then
    .error (.valueError ("No PDF files found in " ++ st.pdfDir))
  else
    match loadAll st.pdfDir (lowerPdfFiles st) with
      | .error e => .error (.otherError e)
      | .ok chunks =>
        let st2 : RagState :=
          { st with
            vector_store := some chunks
            persisted := chunks
            storeDirNonEmpty := true }
        .ok (st2, [Event.insert chunks, Event.persistEv])

/-- Method `RAGSystem.get_retriever`: lazily runs `initialize_vector_store`
when no in-memory store handle exists yet. -/
def get_retriever (st : RagState) : Except PyErr RagState :=
  match st.vector_store with
  | some _ => .ok st
  | none => (initialize_vector_store st).map fun p => p.1

/-- One attributed source of a query answer, as built by `RAGSystem.query`:
the dictionary with the truncated content preview and the chunk metadata. -/
structure SourceInfo where
  content : List Char
  source : String
  page : Nat
deriving DecidableEq

/-- Return value of `RAGSystem.query`. -/
structure QueryResult where
  answer : List Char
  sources : List SourceInfo
deriving DecidableEq

/-- The ellipsis marker appended to every content preview. -/
def ellipsis : List Char := "...".data

/-- The per-document source record of `RAGSystem.query`:
`doc.page_content[:150] + "..."` together with `doc.metadata`. -/
def mkSourceInfo (c : Chunk) : SourceInfo :=
  { content := c.text.take 150 ++ ellipsis, source := c.source, page := c.page }

/-- The source-extraction loop of `RAGSystem.query`, in retrieval order. -/
def extractSources (docs : List Chunk) : List SourceInfo :=
  docs.map mkSourceInfo

/-- The prompt of `RAGSystem.query`, instantiated with the retrieved context
(the `stuff` chain joins chunk texts with blank lines) and the question. -/
def buildPrompt (docs : List Chunk) (q : List Char) : List Char :=
  ("You are a helpful AI assistant that provides accurate information based "
   ++ "on the given context.\n\nContext:\n").data
  ++ List.intercalate "\n\n".data (docs.map fun c => c.text)
  ++ "\n\nQuestion:\n".data ++ q
  ++ ("\n\nPlease provide a detailed answer based only on the provided "
      ++ "context.").data

/-- Method `RAGSystem.query` (`rag_system.py`).  `retrieve` abstracts
similarity search (k = 5) over the store's entries, `llm` the generative
model.  The returned `Bool` records whether the generative model was invoked
during the call. -/
def query (retrieve : List Chunk → List Char → List Chunk)
    (llm : List Char → List Char) (st : RagState) (q : List Char) :
    Except PyErr QueryResult × RagState × Bool :=
  match get_retriever st with
  | .error e => (.error e, st, false)
  | .ok st2 =>
    let docs := retrieve (st2.vector_store.getD []) q
    (.ok { answer := llm (buildPrompt docs q), sources := extractSources docs },
     st2, true)

/-- The `/api/process-documents` handler of `api.py`: it first runs
`process_documents` over the PDF directory and then
`rag_system.initialize_vector_store()`; any exception aborts the request. -/
def process_docs (st : RagState) : Except PyErr (Report × RagState × List Event) :=
  match process_documents st.pdfDirExists st.pdfFiles with
  | .error e => .error e
  | .ok report =>
    match initialize_vector_store st with
    | .error e => .error e
    | .ok (st2, tr) => .ok (report, st2, tr)

/-- Function `process_documents` seen as a transformer of the system state:
the source function performs no vector-store operation of any kind (it only
loads PDFs, splits them, counts the chunks and discards them), so the state
passes through unchanged. -/
def process_documents_step (st : RagState) : Except PyErr (Report × RagState) :=
  match process_documents st.pdfDirExists st.pdfFiles with
  | .error e => .error e
  | .ok r => .ok (r, st)

/-- The default `read_bytes` of `generate_file_hash` (`utils.py`). -/
def READ_BYTES : Nat := 1024 * 1024

/-- Function `generate_file_hash(file_path, read_bytes=1024*1024)` of
`utils.py`: the digest of only the first `read_bytes` bytes of the file.
`sha256` abstracts `hashlib.sha256`. -/
def generate_file_hash (sha256 : List Nat → String) (content : List Nat) : String :=
  sha256 (content.take READ_BYTES)

/-- A file of the source directory as seen by `utils.list_documents`:
name, byte content, modification time, and whether the `os.stat`/read calls
inside the per-file `try` block raise (`some` message) or succeed (`none`). -/
structure SrcFile where
  filename : String
  bytes : List Nat
  mtime : Nat
  statErr : Option String
deriving DecidableEq

/-- One record of the `utils.list_documents` result: either the metadata
dictionary (size in kilobytes rounded to two decimals, modification time,
first-1MB hash) or, when the per-file `try` block raised, the error record.
The rounded kilobyte value is represented exactly in hundredths of a kilobyte
(`size_kb_x100`), and the `strftime` formatting of the timestamp is elided
(it is injective at second granularity), so `modified` carries the timestamp
itself. -/
inductive DocRecord where
  | ok (filename : String) (size_kb_x100 : Nat) (modified : Nat) (hash : String)
  | err (filename : String) (error : String)
deriving DecidableEq

/-- Python `round` of the exact fraction `num / den` to the nearest integer,
ties to even. -/
def roundHalfEvenNat (num den : Nat) : Nat :=
  let q := num / den
  let r := num % den
  if 2 * r < den then q
  else if den < 2 * r then q + 1
  else if q % 2 = 0 then q else q + 1

/-- Python `round(st_size / 1024, 2)` in hundredths of a kilobyte:
`st_size / 1024 * 100 = st_size * 25 / 256`, and the Python float
`st_size / 1024` is exact (division by a power of two), so rounding the exact
fraction half-to-even reproduces the float result. -/
def sizeKbX100 (st_size : Nat) : Nat := roundHalfEvenNat (st_size * 25) 256

/-- The per-file loop of `utils.list_documents`. -/
def listLoop (sha256 : List Nat → String) : List SrcFile → List DocRecord
  | [] => []
  | f :: rest =>
    (match f.statErr with
     | some e => DocRecord.err f.filename e
     | none =>
       DocRecord.ok f.filename (sizeKbX100 f.bytes.length) f.mtime
         (generate_file_hash sha256 f.bytes))
    :: listLoop sha256 rest

/-- Function `list_documents(pdf_directory)` of `utils.py`: an empty list for
a missing directory, otherwise one record per file whose lowercased name ends
in `.pdf`, in directory order. -/
def list_documents (sha256 : List Nat → String) (dirExists : Bool)
    (files : List SrcFile) : List DocRecord :=
  if dirExists = false then []
  else listLoop sha256 (files.filter fun f => lowerIsPdf f.filename)

/-! ### Concrete fixtures used by counterexamples and witnesses -/

/-- A 5-entry similarity retriever stand-in: the store's first k = 5 entries. -/
def retr0 : List Chunk → List Char → List Chunk := fun entries _ => entries.take 5

/-- A canned generative model. -/
def llm0 : List Char → List Char := fun _ => "answer".data

/-- A concrete question. -/
def q0 : List Char := "question".data

/-- A loadable one-page PDF. -/
def goodPdf : PdfFile := { filename := "a.pdf", load := .ok ["hello".data] }

/-- A corrupt PDF whose load raises. -/
def badPdf : PdfFile := { filename := "b.pdf", load := .error "corrupt" }

/-- A freshly constructed `RAGSystem` over an existing but empty PDF
directory: the persist directory was just created by `__init__` (hence
empty) and nothing was ever ingested. -/
def freshEmptySt : RagState :=
  { pdfDir := "data/pdfs", pdfDirExists := true, pdfFiles := [],
    storeDirNonEmpty := false, persisted := [], vector_store := none }

/-- A fresh system over a directory holding one loadable and one corrupt
PDF. -/
def mixedSt : RagState :=
  { pdfDir := "data/pdfs", pdfDirExists := true, pdfFiles := [goodPdf, badPdf],
    storeDirNonEmpty := false, persisted := [], vector_store := none }

/-- A fresh system over a directory holding one loadable PDF. -/
def singleSt : RagState :=
  { pdfDir := "d", pdfDirExists := true, pdfFiles := [goodPdf],
    storeDirNonEmpty := false, persisted := [], vector_store := none }

/-- The chunks `initialize_vector_store` produces from `singleSt`. -/
def cs0 : List Chunk := [{ text := "hello".data, source := "d/a.pdf", page := 0 }]

/-- The state after the first ingestion run over `singleSt`. -/
def singleSt2 : RagState :=
  { pdfDir := "d", pdfDirExists := true, pdfFiles := [goodPdf],
    storeDirNonEmpty := true, persisted := cs0, vector_store := some cs0 }

/-- One already-indexed chunk. -/
def chunk0 : Chunk := { text := "hello".data, source := "data/pdfs/a.pdf", page := 0 }

/-- A system whose store handle is already loaded with one entry. -/
def loadedSt : RagState :=
  { pdfDir := "data/pdfs", pdfDirExists := true, pdfFiles := [goodPdf],
    storeDirNonEmpty := true, persisted := [chunk0], vector_store := some [chunk0] }

/-- The query result produced over `loadedSt`. -/
def res0 : QueryResult :=
  { answer := "answer".data,
    sources := [{ content := "hello".data ++ ellipsis,
                  source := "data/pdfs/a.pdf", page := 0 }] }

/-- A length-reporting digest stand-in for `hashlib.sha256`. -/
def sha0 : List Nat → String := fun l => toString l.length

/-- A 150-byte PDF file with healthy stat calls. -/
def smallFile : SrcFile :=
  { filename := "a.pdf", bytes := List.replicate 150 0, mtime := 7, statErr := none }

/-- A non-PDF file that the listing must skip. -/
def txtFile : SrcFile :=
  { filename := "notes.txt", bytes := [1, 2], mtime := 8, statErr := none }

/-- A PDF file whose stat call raises inside the loop. -/
def badStatFile : SrcFile :=
  { filename := "c.pdf", bytes := [3], mtime := 9, statErr := some "stat failed" }


/-! ### Helper lemmas -/

/-- Closed form of the `process_documents` loop: the counters count the
loadable and unloadable files and the status list records every file in
order. -/
theorem processFiles_eq (fs : List PdfFile) :
    processFiles fs
      = { processed := fs.countP loadOk, failed := fs.countP (fun f => !loadOk f),
          files := fs.map statusOf } := by
  induction fs with
  | nil => rfl
  | cons f rest ih =>
    cases hl : f.load with
    | ok pages =>
      simp [processFiles, hl, ih, statusOf, List.countP_cons, loadOk]
    | error e =>
      simp [processFiles, hl, ih, statusOf, List.countP_cons, loadOk]

/-- The load loop of `initialize_vector_store` fails whenever any file of the
batch fails to load. -/
theorem loadAll_error (dir : String) (fs : List PdfFile)
    (h : ∃ f ∈ fs, loadOk f = false) : ∃ e, loadAll dir fs = .error e := by
  induction fs with
  | nil => simp at h
  | cons f rest ih =>
    obtain ⟨g, hg, hbad⟩ := h
    cases hl : f.load with
    | error e => exact ⟨e, by simp [loadAll, hl]⟩
    | ok pages =>
      rcases List.mem_cons.mp hg with hgf | hmem
      · rw [hgf] at hbad
        rw [loadOk, hl] at hbad
        simp at hbad
      · obtain ⟨e, he⟩ := ih ⟨g, hmem, hbad⟩
        exact ⟨e, by simp [loadAll, hl, he, Except.map]⟩

/-- Every error `initialize_vector_store` can produce is a
`FileNotFoundError`, a `ValueError` or the re-raised loader exception — never
the `NoDocumentsIndexedError` of the specification. -/
theorem init_error_kind (st : RagState) (e : PyErr)
    (h : initialize_vector_store st = .error e) : e ≠ PyErr.noDocumentsIndexed := by
  unfold initialize_vector_store at h
  split at h
  · exact absurd h (by simp)
  · split at h
    · simp only [Except.error.injEq] at h
      subst h
      intro hc
      cases hc
    · split at h
      · simp only [Except.error.injEq] at h
        subst h
        intro hc
        cases hc
      · split at h
        · simp only [Except.error.injEq] at h
          subst h
          intro hc
          cases hc
        · exact absurd h (by simp)

/-- Closed form of the `list_documents` loop. -/
theorem listLoop_eq (sha : List Nat → String) (fs : List SrcFile) :
    listLoop sha fs
      = fs.map (fun f =>
          match f.statErr with
          | some e => DocRecord.err f.filename e
          | none =>
            DocRecord.ok f.filename (sizeKbX100 f.bytes.length) f.mtime
              (sha (f.bytes.take READ_BYTES))) := by
  induction fs with
  | nil => rfl
  | cons f rest ih =>
    cases hs : f.statErr with
    | some e => simp [listLoop, hs, ih]
    | none => simp [listLoop, hs, ih, generate_file_hash]

/-! ### Claim C1 -/

/-- C1: counterexample.  On a freshly created, never-ingested index whose
source directory exists but holds no PDFs, `RAGSystem.query` raises
`ValueError`, not the `NoDocumentsIndexedError` the claim names — no such
class exists anywhere in the code. -/
theorem C1_counterexample :
    query retr0 llm0 freshEmptySt q0
      = (.error (.valueError "No PDF files found in data/pdfs"), freshEmptySt, false)
    ∧ PyErr.valueError "No PDF files found in data/pdfs" ≠ PyErr.noDocumentsIndexed := by
  constructor
  · decide
  · intro hc
    cases hc

/-- C1 (amended): `RAGSystem.query` never raises a `NoDocumentsIndexedError`
(the class exists nowhere in the code).  On a freshly created, never-ingested
index it lazily runs `initialize_vector_store`: if the source directory
contains no PDF files the call raises `ValueError` and the generative model
is not invoked, while if initialization succeeds (PDFs are present and
loadable) the generative model IS invoked on this never-explicitly-ingested
index. -/
theorem C1_amended (retrieve : List Chunk → List Char → List Chunk)
    (llm : List Char → List Char) (st : RagState) (q : List Char)
    (hvs : st.vector_store = none) (hsd : st.storeDirNonEmpty = false) :
    (∀ e, (query retrieve llm st q).1 = .error e → e ≠ PyErr.noDocumentsIndexed)
    ∧ (st.pdfDirExists = true → (lowerPdfFiles st).isEmpty = true →
        query retrieve llm st q
          = (.error (.valueError ("No PDF files found in " ++ st.pdfDir)), st, false))
    ∧ (∀ st2 tr, initialize_vector_store st = .ok (st2, tr) →
        (query retrieve llm st q).2.2 = true) := by
  refine ⟨?_, ?_, ?_⟩
  · intro e he
    unfold query at he
    cases hr : get_retriever st with
    | ok stx =>
      rw [hr] at he
      simp at he
    | error e2 =>
      rw [hr] at he
      simp only at he
      injection he with he2
      subst he2
      unfold get_retriever at hr
      rw [hvs] at hr
      cases hi : initialize_vector_store st with
      | ok p =>
        rw [hi] at hr
        simp [Except.map] at hr
      | error e3 =>
        rw [hi] at hr
        simp only [Except.map] at hr
        injection hr with hr2
        subst hr2
        exact init_error_kind st e3 hi
  · intro hde hfil
    have hi : initialize_vector_store st
        = .error (.valueError ("No PDF files found in " ++ st.pdfDir)) := by
      unfold initialize_vector_store
      rw [hsd, hde, hfil]
      simp
    have hgr : get_retriever st
        = .error (.valueError ("No PDF files found in " ++ st.pdfDir)) := by
      unfold get_retriever
      rw [hvs, hi]
      rfl
    unfold query
    rw [hgr]
  · intro st2 tr hi
    have hgr : get_retriever st = .ok st2 := by
      unfold get_retriever
      rw [hvs, hi]
      rfl
    unfold query
    rw [hgr]

/-- C1 witness: the amended theorem applied to the concrete fresh system over
an empty source directory. -/
theorem C1_witness :
    query retr0 llm0 freshEmptySt q0
      = (.error (.valueError ("No PDF files found in " ++ freshEmptySt.pdfDir)),
         freshEmptySt, false) :=
  (C1_amended retr0 llm0 freshEmptySt q0 rfl rfl).2.1 rfl rfl

/-! ### Claim C2 -/

/-- C2: counterexample.  For a batch of N = 2 documents of which M = 1 fails
to load, the report phase alone does say 1 processed / 1 failed with per-file
statuses, but the full ingestion run (`/api/process-documents`, which
performs the index insertion through `initialize_vector_store`) is aborted by
that single document's failure: the request errors out and no chunk — not
even from the successful document — is inserted into the index. -/
theorem C2_counterexample :
    process_documents mixedSt.pdfDirExists mixedSt.pdfFiles
      = .ok { processed := 1, failed := 1,
              files := [FileStatus.success "a.pdf" 1 1,
                        FileStatus.failed "b.pdf" "corrupt"] }
    ∧ process_docs mixedSt = .error (.otherError "corrupt")
    ∧ initialize_vector_store mixedSt = .error (.otherError "corrupt") := by
  refine ⟨by decide, by decide, by decide⟩

/-- C2 (amended): `process_documents` in isolation is failure-isolated — for
any batch it reports exactly the number of loadable files as processed and
the number of unloadable files as failed, with one status record per file in
order — but chunk insertion into the index is performed separately by
`initialize_vector_store`, which has no per-document isolation: on a fresh
store, a single document whose load fails aborts that whole run with an
error, so no chunks at all are inserted. -/
theorem C2_amended (fs : List PdfFile) (st : RagState)
    (hsd : st.storeDirNonEmpty = false) (hde : st.pdfDirExists = true)
    (hbad : ∃ f ∈ lowerPdfFiles st, loadOk f = false) :
    processFiles fs
      = { processed := fs.countP loadOk,
          failed := fs.countP (fun f => !loadOk f),
          files := fs.map statusOf }
    ∧ ∃ e, initialize_vector_store st = .error (.otherError e) := by
  refine ⟨processFiles_eq fs, ?_⟩
  obtain ⟨e, he⟩ := loadAll_error st.pdfDir (lowerPdfFiles st) hbad
  refine ⟨e, ?_⟩
  have hne : (lowerPdfFiles st).isEmpty = false := by
    obtain ⟨f, hf, _⟩ := hbad
    cases hl : lowerPdfFiles st with
    | nil => rw [hl] at hf; simp at hf
    | cons a l => rfl
  unfold initialize_vector_store
  rw [hsd, hde, hne, he]
  simp

/-- C2 witness: the amended theorem applied to the two-document batch with
one corrupt file. -/
theorem C2_witness :
    processFiles [goodPdf, badPdf]
      = { processed := [goodPdf, badPdf].countP loadOk,
          failed := [goodPdf, badPdf].countP (fun f => !loadOk f),
          files := [goodPdf, badPdf].map statusOf } :=
  (C2_amended [goodPdf, badPdf] mixedSt rfl rfl ⟨badPdf, by decide, by decide⟩).1

/-! ### Claim C3 -/

/-- C3: every successful `RAGSystem.query` returns one source per retrieved
chunk, in retrieval-ranking order: entry i of the sources list is built from
retrieved chunk i, its content preview is the chunk text truncated to its
first 150 characters followed by the `"..."` marker (hence at most 153
characters in total), and it carries the chunk's source metadata (document
path and page number). -/
theorem C3_sources (retrieve : List Chunk → List Char → List Chunk)
    (llm : List Char → List Char) (st : RagState) (q : List Char)
    (res : QueryResult) (st2 : RagState) (b : Bool) (i : Nat)
    (h : query retrieve llm st q = (.ok res, st2, b))
    (hi : i < (retrieve (st2.vector_store.getD []) q).length) :
    res.sources.length = (retrieve (st2.vector_store.getD []) q).length
    ∧ res.sources[i]?
        = some { content := (retrieve (st2.vector_store.getD []) q)[i].text.take 150
                            ++ ellipsis,
                 source := (retrieve (st2.vector_store.getD []) q)[i].source,
                 page := (retrieve (st2.vector_store.getD []) q)[i].page }
    ∧ ((retrieve (st2.vector_store.getD []) q)[i].text.take 150 ++ ellipsis).length
        ≤ 153 := by
  unfold query at h
  cases hr : get_retriever st with
  | error e =>
    rw [hr] at h
    simp at h
  | ok stx =>
    rw [hr] at h
    simp only [Prod.mk.injEq] at h
    obtain ⟨h1, h2, h3⟩ := h
    injection h1 with h1
    subst h2
    subst h1
    refine ⟨?_, ?_, ?_⟩
    · simp [extractSources]
    · simp only [extractSources]
      rw [List.getElem?_map, List.getElem?_eq_getElem hi]
      rfl
    · have he : ellipsis.length = 3 := rfl
      have ht : ((retrieve (stx.vector_store.getD []) q)[i].text.take 150).length
          ≤ 150 := by
        rw [List.length_take]
        exact Nat.min_le_left _ _
      rw [List.length_append, he]
      omega

/-- C3 witness: the theorem applied to a concrete loaded store holding one
chunk. -/
theorem C3_witness :
    res0.sources[0]?
      = some { content := "hello".data ++ ellipsis,
               source := "data/pdfs/a.pdf", page := 0 } :=
  (C3_sources retr0 llm0 loadedSt q0 res0 loadedSt true 0 (by decide)
    (by decide)).2.1

/-! ### Claim C4 -/

/-- C4: whenever an `initialize_vector_store` run inserts chunks into the
vector index at all, its event trace is exactly one batched insertion of all
the run's chunks (which are exactly the persisted entries of the resulting
state) followed by exactly one `persist()` call at the very end — never a
per-document insert or persist. -/
theorem C4_persist_once (st st2 : RagState) (tr : List Event)
    (h : initialize_vector_store st = .ok (st2, tr))
    (hins : ∃ cs, Event.insert cs ∈ tr) :
    tr = [Event.insert st2.persisted, Event.persistEv] := by
  unfold initialize_vector_store at h
  split at h
  · simp only [Except.ok.injEq, Prod.mk.injEq] at h
    obtain ⟨_, htr⟩ := h
    obtain ⟨cs, hcs⟩ := hins
    rw [← htr] at hcs
    simp at hcs
  · split at h
    · exact absurd h (by simp)
    · split at h
      · exact absurd h (by simp)
      · split at h
        · exact absurd h (by simp)
        · simp only [Except.ok.injEq, Prod.mk.injEq] at h
          obtain ⟨hst, htr⟩ := h
          rw [← htr, ← hst]

/-- C4 witness: the theorem applied to a concrete fresh one-PDF ingestion
run. -/
theorem C4_witness :
    ([Event.insert cs0, Event.persistEv] : List Event)
      = [Event.insert singleSt2.persisted, Event.persistEv] :=
  C4_persist_once singleSt singleSt2 [Event.insert cs0, Event.persistEv]
    (by decide) ⟨cs0, by decide⟩

/-! ### Claim C5 -/

/-- C5: counterexample.  After a first ingestion of a one-PDF corpus the
index holds 1 entry; a second ingestion run of the same corpus does not
append: `initialize_vector_store` finds the persist directory non-empty,
loads the existing store and inserts nothing, so the count stays 1 — it does
not double to 2. -/
theorem C5_counterexample :
    initialize_vector_store singleSt
      = .ok (singleSt2, [Event.insert cs0, Event.persistEv])
    ∧ singleSt2.persisted.length = 1
    ∧ initialize_vector_store singleSt2 = .ok (singleSt2, [])
    ∧ ¬(1 = 2 * 1) := by
  refine ⟨by decide, by decide, by decide, by decide⟩

/-- C5 (amended): the vector index is never appended to by a repeat
ingestion.  Any successful `initialize_vector_store` run leaves the persist
directory non-empty, and a run over a non-empty persist directory loads the
existing store without inserting anything, so re-ingesting the same corpus
without clearing the index leaves the entry count unchanged — it does not
produce duplicates (the creation branch runs only when the persist directory
is empty). -/
theorem C5_amended (st st2 : RagState) (tr : List Event)
    (hfirst : initialize_vector_store st = .ok (st2, tr)) :
    st2.storeDirNonEmpty = true
    ∧ initialize_vector_store st2
        = .ok ({ st2 with vector_store := some st2.persisted }, [])
    ∧ ({ st2 with vector_store := some st2.persisted } : RagState).persisted.length
        = st2.persisted.length := by
  have hsd : st2.storeDirNonEmpty = true := by
    unfold initialize_vector_store at hfirst
    split at hfirst
    · simp only [Except.ok.injEq, Prod.mk.injEq] at hfirst
      obtain ⟨hst, _⟩ := hfirst
      rw [← hst]
      assumption
    · split at hfirst
      · exact absurd hfirst (by simp)
      · split at hfirst
        · exact absurd hfirst (by simp)
        · split at hfirst
          · exact absurd hfirst (by simp)
          · simp only [Except.ok.injEq, Prod.mk.injEq] at hfirst
            obtain ⟨hst, _⟩ := hfirst
            rw [← hst]
  refine ⟨hsd, ?_, rfl⟩
  unfold initialize_vector_store
  rw [hsd]
  simp

/-- C5 witness: the amended theorem applied to the concrete first ingestion
run over a one-PDF corpus. -/
theorem C5_witness :
    singleSt2.storeDirNonEmpty = true
    ∧ initialize_vector_store singleSt2
        = .ok ({ singleSt2 with vector_store := some singleSt2.persisted }, [])
    ∧ ({ singleSt2 with vector_store := some singleSt2.persisted } : RagState).persisted.length
        = singleSt2.persisted.length :=
  C5_amended singleSt singleSt2 [Event.insert cs0, Event.persistEv] (by decide)

/-! ### Claim C6 -/

/-- C6: the chunker yields exactly one chunk for non-empty text shorter than
the configured 1000-character chunk size, and the empty sequence — not an
error — for empty text. -/
theorem C6_edge (s : List Char) (hne : s ≠ []) (hlen : s.length < 1000) :
    splitText s = [s] ∧ splitText ([] : List Char) = [] := by
  constructor
  · have h1 : s.isEmpty = false := by
      cases s with
      | nil => exact absurd rfl hne
      | cons a t => rfl
    have h2 : ∃ k, s.length = k + 1 := by
      cases s with
      | nil => exact absurd rfl hne
      | cons a t => exact ⟨t.length, rfl⟩
    obtain ⟨k, hk⟩ := h2
    unfold splitText
    rw [h1, hk]
    simp only [Bool.false_eq_true, if_false]
    unfold splitWindows
    rw [if_pos (Nat.le_of_lt hlen)]
  · rfl

/-- C6 witness: the theorem applied to a one-character text. -/
theorem C6_witness :
    splitText "a".data = ["a".data] ∧ splitText ([] : List Char) = [] :=
  C6_edge "a".data (by decide) (by decide)

/-! ### Claim C7 -/

/-- C7: chunking is deterministic — the splitter is a pure function of the
input text and its fixed configuration, so byte-identical inputs produce
byte-identical ordered chunk sequences across repeated calls, and the whole
report phase is likewise reproducible. -/
theorem C7_deterministic (s1 s2 : List Char) (h : s1 = s2) :
    splitText s1 = splitText s2
    ∧ ∀ fs : List PdfFile, processFiles fs = processFiles fs := by
  subst h
  exact ⟨rfl, fun _ => rfl⟩

/-- C7 witness: the theorem applied to a concrete text. -/
theorem C7_witness : splitText "ab".data = splitText "ab".data :=
  (C7_deterministic "ab".data "ab".data rfl).1

/-! ### Claim C8 -/

/-- C8: counterexample.  The size field of a `list_documents` record is the
size in kilobytes rounded to two decimals, not the size in bytes: for a
150-byte PDF the stored value is 0.15 (encoded as 15 hundredths of a
kilobyte), which does not denote the byte count 150 (15000 hundredths of a
kilobyte would). -/
theorem C8_counterexample :
    list_documents sha0 true [smallFile]
      = [DocRecord.ok "a.pdf" 15 7 (sha0 (List.replicate 150 0))]
    ∧ (15 : Nat) ≠ 100 * 150 := by
  refine ⟨by decide, by decide⟩

/-- C8 (amended): for an existing source directory, `list_documents` returns
exactly one record per file whose lowercased name ends in `.pdf`, in
directory order, with fields filename, size in kilobytes rounded to two
decimals (not bytes), modification time, and the digest of the file's first
1MB; a file whose stat/read raises yields a filename-plus-error record
instead.  The result is a function of the directory contents alone — the
operation takes no index state, so it never reflects index contents. -/
theorem C8_amended (sha : List Nat → String) (dirExists : Bool)
    (fs : List SrcFile) (h : dirExists = true) :
    list_documents sha dirExists fs
      = (fs.filter fun f => lowerIsPdf f.filename).map (fun f =>
          match f.statErr with
          | some e => DocRecord.err f.filename e
          | none =>
            DocRecord.ok f.filename (sizeKbX100 f.bytes.length) f.mtime
              (sha (f.bytes.take READ_BYTES))) := by
  subst h
  unfold list_documents
  simp only [Bool.true_eq_false, if_false]
  exact listLoop_eq sha _

/-- C8 witness: the amended theorem applied to a directory with a healthy
PDF, a non-PDF file and a PDF whose stat raises. -/
theorem C8_witness :
    list_documents sha0 true [smallFile, txtFile, badStatFile]
      = ([smallFile, txtFile, badStatFile].filter
           fun f => lowerIsPdf f.filename).map (fun f =>
          match f.statErr with
          | some e => DocRecord.err f.filename e
          | none =>
            DocRecord.ok f.filename (sizeKbX100 f.bytes.length) f.mtime
              (sha0 (f.bytes.take READ_BYTES))) :=
  C8_amended sha0 true [smallFile, txtFile, badStatFile] rfl

/-! ### Claim C9 -/

/-- C9: `generate_file_hash` digests only the first 1MB (1024 * 1024 bytes)
of a file: any two files that agree on their first 1MB hash identically —
in particular two files with the same 1MB head and different tails — and a
file shorter than 1MB is hashed over its entire content. -/
theorem C9_first_mb (sha : List Nat → String) (c1 c2 c3 : List Nat)
    (h12 : c1.take READ_BYTES = c2.take READ_BYTES)
    (h3 : c3.length ≤ READ_BYTES) :
    generate_file_hash sha c1 = generate_file_hash sha c2
    ∧ generate_file_hash sha c3 = sha c3
    ∧ ∀ head t1 t2 : List Nat, head.length = READ_BYTES →
        generate_file_hash sha (head ++ t1) = generate_file_hash sha (head ++ t2) := by
  refine ⟨?_, ?_, ?_⟩
  · unfold generate_file_hash
    rw [h12]
  · unfold generate_file_hash
    rw [List.take_of_length_le h3]
  · intro head t1 t2 hh
    unfold generate_file_hash
    rw [← hh, List.take_left, List.take_left]

/-- C9 witness: the theorem applied to concrete short byte lists. -/
theorem C9_witness :
    generate_file_hash sha0 [1, 2, 3] = generate_file_hash sha0 [1, 2, 3]
    ∧ generate_file_hash sha0 [7] = sha0 [7] := by
  have h := C9_first_mb sha0 [1, 2, 3] [1, 2, 3] [7] rfl (by decide)
  exact ⟨h.1, h.2.1⟩

/-! ### Claim C10 -/

/-- C10: `process_documents` never mutates the vector index — the system
state (in particular the persisted index entries and the in-memory store
handle) is exactly the state before the call — and its report counts reflect
only per-document load-and-chunk success, independent of any index
insertion (splitting itself is total, so a document is processed exactly
when its load succeeds). -/
theorem C10_frame (st : RagState) (r : Report) (st2 : RagState)
    (h : process_documents_step st = .ok (r, st2)) :
    st2 = st ∧ st2.persisted = st.persisted
    ∧ st2.vector_store = st.vector_store
    ∧ r.processed = (globPdf st.pdfFiles).countP loadOk
    ∧ r.failed = (globPdf st.pdfFiles).countP (fun f => !loadOk f) := by
  unfold process_documents_step at h
  cases hp : process_documents st.pdfDirExists st.pdfFiles with
  | error e =>
    rw [hp] at h
    exact absurd h (by simp)
  | ok r2 =>
    rw [hp] at h
    simp only [Except.ok.injEq, Prod.mk.injEq] at h
    obtain ⟨hr, hst⟩ := h
    subst hr
    subst hst
    refine ⟨rfl, rfl, rfl, ?_, ?_⟩
    all_goals
      unfold process_documents at hp
      split at hp
      · exact absurd hp (by simp)
      · split at hp
        · simp only [Except.ok.injEq] at hp
          have hg : globPdf st.pdfFiles = [] := by
            rwa [← List.isEmpty_iff]
          rw [← hp, hg]
          rfl
        · simp only [Except.ok.injEq] at hp
          rw [← hp, processFiles_eq]

/-- C10 witness: the theorem applied to the two-document system with one
corrupt file. -/
theorem C10_witness :
    mixedSt = mixedSt ∧ mixedSt.persisted = mixedSt.persisted
    ∧ mixedSt.vector_store = mixedSt.vector_store
    ∧ ({ processed := 1, failed := 1,
         files := [FileStatus.success "a.pdf" 1 1,
                   FileStatus.failed "b.pdf" "corrupt"] } : Report).processed
        = (globPdf mixedSt.pdfFiles).countP loadOk
    ∧ ({ processed := 1, failed := 1,
         files := [FileStatus.success "a.pdf" 1 1,
                   FileStatus.failed "b.pdf" "corrupt"] } : Report).failed
        = (globPdf mixedSt.pdfFiles).countP (fun f => !loadOk f) :=
  C10_frame mixedSt
    { processed := 1, failed := 1,
      files := [FileStatus.success "a.pdf" 1 1,
                FileStatus.failed "b.pdf" "corrupt"] }
    mixedSt (by decide)
